import Mathlib

set_option maxRecDepth 4000
set_option maxHeartbeats 1000000

/-!
Verification development for the pyviz repository's client-side core:
the dataset validator (frontend/src/components/DataInput.jsx) and the
Python-code generator (frontend/src/mock.js), together with the static
customization catalogs those functions consume.
-/

/-- Chart descriptor from the static catalog `mockChartTypes` in mock.js. -/
structure ChartType where
  id : String
  name : String
  library : String
  description : String
  icon : String
  category : String
  deriving DecidableEq

/-- Color palette entry from `mockCustomizationOptions.colors` in mock.js. -/
structure ColorScheme where
  name : String
  value : String
  colors : List String
  deriving DecidableEq

/-- Theme entry from `mockCustomizationOptions.themes` in mock.js. -/
structure Theme where
  name : String
  value : String
  description : String
  deriving DecidableEq

/-- Size preset from `mockCustomizationOptions.sizes` in mock.js. -/
structure SizePreset where
  name : String
  value : String
  width : Nat
  height : Nat
  deriving DecidableEq

/-- Customization record as assembled by the ChartBuilder component: a palette,
a theme and a size preset, plus the two slider-backed fields `customWidth` and
`customHeight` that the custom-size UI updates. -/
structure Customization where
  colors : ColorScheme
  theme : Theme
  size : SizePreset
  customWidth : Nat
  customHeight : Nat
  deriving DecidableEq

/-- Dataset record in the shape the spec's data model gives it (string labels in
`rows`, numeric values in `cols`, optional numeric `values`); numeric entries are
modeled as integers. -/
structure Dataset where
  name : String
  rows : List String
  cols : List Int
  values : Option (List Int)
  deriving DecidableEq

/-- Static chart catalog, transcribed from `mockChartTypes` in mock.js. -/
def mockChartTypes : List ChartType :=
  [⟨"matplotlib_line", "Line Chart", "matplotlib", "Perfect for showing trends over time", "📈", "basic"⟩,
   ⟨"matplotlib_bar", "Bar Chart", "matplotlib", "Great for comparing categories", "📊", "basic"⟩,
   ⟨"matplotlib_scatter", "Scatter Plot", "matplotlib", "Shows relationships between variables", "⚪", "basic"⟩,
   ⟨"seaborn_heatmap", "Heatmap", "seaborn", "Visualize data through colors", "🔥", "statistical"⟩,
   ⟨"seaborn_violin", "Violin Plot", "seaborn", "Show distribution shapes", "🎻", "statistical"⟩,
   ⟨"plotly_interactive", "Interactive Chart", "plotly", "Hover, zoom, and pan capabilities", "🖱️", "interactive"⟩]

/-- Static customization catalogs from `mockCustomizationOptions` in mock.js. -/
structure CustomizationOptions where
  colors : List ColorScheme
  themes : List Theme
  sizes : List SizePreset

/-- Transcription of `mockCustomizationOptions` in mock.js. -/
def mockCustomizationOptions : CustomizationOptions :=
  { colors :=
      [⟨"Default", "default", ["#1f77b4", "#ff7f0e", "#2ca02c"]⟩,
       ⟨"Viridis", "viridis", ["#440154", "#31688e", "#35b779"]⟩,
       ⟨"Plasma", "plasma", ["#0d0887", "#cc4778", "#f0f921"]⟩,
       ⟨"Ocean", "ocean", ["#003f5c", "#58508d", "#bc5090"]⟩,
       ⟨"Sunset", "sunset", ["#ff6b35", "#f7931e", "#ffd23f"]⟩],
    themes :=
      [⟨"Clean", "clean", "Minimal and professional"⟩,
       ⟨"Dark", "dark", "Dark theme for modern look"⟩,
       ⟨"Scientific", "scientific", "Academic publication style"⟩,
       ⟨"Presentation", "presentation", "Bold for presentations"⟩],
    sizes :=
      [⟨"Small", "small", 800, 600⟩,
       ⟨"Medium", "medium", 1200, 800⟩,
       ⟨"Large", "large", 1600, 1000⟩,
       ⟨"Custom", "custom", 1200, 800⟩] }

/-- Lowercase hexadecimal digit, used by the JSON string escaper. -/
def hexDigit (n : Nat) : Char :=
  if n < 10 then Char.ofNat (48 + n) else Char.ofNat (87 + n)

/-- Escape of one character as `JSON.stringify` performs it on string contents:
quote and backslash get a backslash, the short control escapes are used where
they exist, other control characters become a lowercase \u00xx escape, and
everything else passes through. -/
def jsonEscapeChar (c : Char) : String :=
  if c = '"' then "\\\""
  else if c = '\\' then "\\\\"
  else if c = '\x08' then "\\b"
  else if c = '\x0c' then "\\f"
  else if c = '\n' then "\\n"
  else if c = '\r' then "\\r"
  else if c = '\t' then "\\t"
  else if c.toNat < 32 then
    "\\u00" ++ String.singleton (hexDigit (c.toNat / 16)) ++ String.singleton (hexDigit (c.toNat % 16))
  else String.singleton c

/-- JSON serialization of a string, as `JSON.stringify` renders it. -/
def jsonStringifyStr (s : String) : String :=
  "\"" ++ String.join (s.data.map jsonEscapeChar) ++ "\""

/-- JSON serialization of an array of strings, as `JSON.stringify` renders it
(no whitespace between elements). -/
def jsonStringifyStrList (l : List String) : String :=
  "[" ++ String.intercalate "," (l.map jsonStringifyStr) ++ "]"

/-- JSON serialization of an array of integers, as `JSON.stringify` renders it. -/
def jsonStringifyIntList (l : List Int) : String :=
  "[" ++ String.intercalate "," (l.map toString) ++ "]"

/-- Decimal rendering of the JavaScript expression `n / 100` for a natural `n`,
as a template literal interpolates it: JavaScript prints the shortest decimal,
so an exact multiple of 100 prints with no fractional part (`1200/100` is `12`,
never `12.0`), and otherwise at most two fractional digits appear. -/
def jsDivBy100 (n : Nat) : String :=
  let q := n / 100
  let r := n % 100
  if r = 0 then toString q
  else if r % 10 = 0 then toString q ++ "." ++ toString (r / 10)
  else if r < 10 then toString q ++ ".0" ++ toString r
  else toString q ++ "." ++ toString r

/-- JavaScript array indexing `colors.colors[i]` interpolated into a template
literal: an out-of-range index yields `undefined`, which interpolates as the
text "undefined". -/
def jsIndex (l : List String) (i : Nat) : String := l.getD i "undefined"

/-- JavaScript truthiness of the condition `values && values.length > 0` in
mock.js (lines 114 and 124): false when `dataset.values` is absent or empty. -/
def hasValues (values : Option (List Int)) : Bool :=
  match values with
  | some l => decide (l.length > 0)
  | none => false

/-- JavaScript strict equality `theme === 'dark'` from mock.js lines 128 and
206. There `theme` is the value destructured from `customization.theme`, which
ChartBuilder always sets to a theme record (an object with name/value/description
drawn from the themes catalog), and in JavaScript `===` between an object and a
string is always false, whatever the string is. (PreviewPanel.jsx line 148
compares `customization.theme.value === 'dark'` instead; mock.js compares the
object itself.) -/
def jsStrictEqObjStr (_theme : Theme) (_s : String) : Bool := false

/-- Common preamble of the generated script, from mock.js lines 104-131:
imports, data bindings, DataFrame construction, style line and figure size.
It reads the customization only through `theme` and `size`, exactly as the
destructuring `const { colors, theme, size } = customization` does. -/
def preamble (dataset : Dataset) (theme : Theme) (size : SizePreset) : String :=
  "import matplotlib.pyplot as plt\nimport seaborn as sns\nimport plotly.express as px\nimport pandas as pd\nimport numpy as np\n\n# Data setup\nrows = "
    ++ jsonStringifyStrList dataset.rows
    ++ "\ncols = "
    ++ jsonStringifyIntList dataset.cols
    ++ (if hasValues dataset.values then "\nvalues = " ++ jsonStringifyIntList (dataset.values.getD []) else "")
    ++ "\n\n# Create DataFrame for easier manipulation\ndf = pd.DataFrame(\x7b\n    'categories': rows,\n    'values': cols"
    ++ (if hasValues dataset.values then ",\n    'weights': values" else "")
    ++ "\n\x7d)\n\n# Set up the plot style\nplt.style.use('"
    ++ (if jsStrictEqObjStr theme "dark" then "dark_background" else "default")
    ++ "')\nfigure_size = ("
    ++ jsDivBy100 size.width
    ++ ", "
    ++ jsDivBy100 size.height
    ++ ")\n\n"

/-- Body of the `matplotlib_line` branch, mock.js lines 135-144. -/
def lineBody (dataset : Dataset) : String :=
  "# Create line chart\nplt.figure(figsize=figure_size)\nplt.plot(rows, cols, marker='o', linewidth=2.5, markersize=8)\nplt.title('"
    ++ dataset.name
    ++ "', fontsize=16, fontweight='bold', pad=20)\nplt.xlabel('Categories', fontsize=12)\nplt.ylabel('Values', fontsize=12)\nplt.grid(True, alpha=0.3)\nplt.tight_layout()\nplt.savefig('visualization.png', dpi=300, bbox_inches='tight')\nplt.show()"

/-- Front part of the `matplotlib_bar` branch (mock.js lines 148-153), up to and
including the newline before the xticks line. -/
def barFront (dataset : Dataset) (colors : ColorScheme) : String :=
  "# Create bar chart\nplt.figure(figsize=figure_size)\nbars = plt.bar(rows, cols, color='"
    ++ jsIndex colors.colors 0
    ++ "', alpha=0.8, edgecolor='black', linewidth=0.8)\nplt.title('"
    ++ dataset.name
    ++ "', fontsize=16, fontweight='bold', pad=20)\nplt.xlabel('Categories', fontsize=12)\nplt.ylabel('Values', fontsize=12)\n"

/-- The xticks line of the bar branch, mock.js line 154; the 45-versus-0 choice
is Python source text inside the template, evaluated only when the generated
script runs. -/
def barXticksChunk : String :=
  "plt.xticks(rotation=45 if len(rows) > 4 else 0)"

/-- Remainder of the `matplotlib_bar` branch after the xticks line, mock.js
lines 155-163. -/
def barTail : String :=
  "\n\n# Add value labels on bars\nfor bar, value in zip(bars, cols):\n    plt.text(bar.get_x() + bar.get_width()/2, bar.get_height() + max(cols)*0.01,\n             f'\x7bvalue:,\x7d', ha='center', va='bottom', fontweight='bold')\n\nplt.tight_layout()\nplt.savefig('visualization.png', dpi=300, bbox_inches='tight')\nplt.show()"

/-- Body of the `matplotlib_bar` branch, mock.js lines 148-163. -/
def barBody (dataset : Dataset) (colors : ColorScheme) : String :=
  barFront dataset colors ++ (barXticksChunk ++ barTail)

/-- Body of the `seaborn_heatmap` branch, mock.js lines 167-177 (the template
has a trailing space after the cmap argument before the line break). -/
def heatmapBody (dataset : Dataset) (colors : ColorScheme) : String :=
  "# Create heatmap\nplt.figure(figsize=figure_size)\n# Reshape data for heatmap if needed\nheatmap_data = np.array(cols).reshape(-1, 1) if len(np.array(cols).shape) == 1 else cols\nsns.heatmap(heatmap_data, annot=True, cmap='"
    ++ colors.value
    ++ "', \n           xticklabels=rows[:len(heatmap_data[0])] if len(heatmap_data.shape) > 1 else ['Values'],\n           yticklabels=rows, square=True, linewidths=0.5)\nplt.title('"
    ++ dataset.name
    ++ "', fontsize=16, fontweight='bold', pad=20)\nplt.tight_layout()\nplt.savefig('visualization.png', dpi=300, bbox_inches='tight')\nplt.show()"

/-- Front part of the `plotly_interactive` branch (mock.js lines 181-202), up to
and including the newline before the width line. -/
def plotlyFront (dataset : Dataset) (colors : ColorScheme) : String :=
  "# Create interactive chart with Plotly\nimport plotly.graph_objects as go\n\nfig = go.Figure()\nfig.add_trace(go.Scatter(\n    x=rows,\n    y=cols,\n    mode='lines+markers',\n    name='"
    ++ dataset.name
    ++ "',\n    line=dict(width=3, color='"
    ++ jsIndex colors.colors 0
    ++ "'),\n    marker=dict(size=10, color='"
    ++ jsIndex colors.colors 1
    ++ "')\n))\n\nfig.update_layout(\n    title=\x7b\n        'text': '"
    ++ dataset.name
    ++ "',\n        'x': 0.5,\n        'xanchor': 'center',\n        'font': \x7b'size': 18, 'family': 'Arial, sans-serif'\x7d\n    \x7d,\n    xaxis_title='Categories',\n    yaxis_title='Values',\n"

/-- The width/height lines of the plotly branch, mock.js lines 203-204: the
pixel sizes are interpolated directly from `size.width` and `size.height`. -/
def plotlySizeChunk (size : SizePreset) : String :=
  "    width=" ++ toString size.width ++ ",\n    height=" ++ toString size.height ++ ",\n"

/-- Remainder of the `plotly_interactive` branch after the height line, mock.js
lines 205-210. -/
def plotlyTail (theme : Theme) : String :=
  "    hovermode='closest',\n    template='"
    ++ (if jsStrictEqObjStr theme "dark" then "plotly_dark" else "plotly_white")
    ++ "'\n)\n\nfig.show()\n# To save: fig.write_html(\"visualization.html\")"

/-- Body of the `plotly_interactive` branch, mock.js lines 181-210. -/
def plotlyBody (dataset : Dataset) (colors : ColorScheme) (theme : Theme) (size : SizePreset) : String :=
  plotlyFront dataset colors ++ (plotlySizeChunk size ++ plotlyTail theme)

/-- Body of the default switch branch, mock.js lines 214-219. -/
def defaultBody (dataset : Dataset) : String :=
  "# Basic visualization\nplt.figure(figsize=figure_size)\nplt.plot(rows, cols)\nplt.title('"
    ++ dataset.name
    ++ "')\nplt.savefig('visualization.png')\nplt.show()"

/-- Dispatch of `generateMockPythonCode` after the destructuring of its
arguments: the switch on `chartType.id` (strict string equality) appends one
chart-specific body to the common preamble, with a default branch for every
unrecognized id. -/
def genCode (id : String) (dataset : Dataset) (colors : ColorScheme) (theme : Theme) (size : SizePreset) : String :=
  preamble dataset theme size ++
    (if id = "matplotlib_line" then lineBody dataset
     else if id = "matplotlib_bar" then barBody dataset colors
     else if id = "seaborn_heatmap" then heatmapBody dataset colors
     else if id = "plotly_interactive" then plotlyBody dataset colors theme size
     else defaultBody dataset)

/-- Transcription of `generateMockPythonCode` from mock.js lines 99-223. The
function destructures `id` from the chart descriptor and `colors`, `theme`,
`size` from the customization, and uses nothing else of the customization. -/
def generateMockPythonCode (chartType : ChartType) (dataset : Dataset) (customization : Customization) : String :=
  genCode chartType.id dataset customization.colors customization.theme customization.size

/-- Boolean test that the character list `pat` is a leading segment of `s`. -/
def startsWithB : List Char → List Char → Bool
  | [], _ => true
  | _ :: _, [] => false
  | a :: as, b :: bs => a == b && startsWithB as bs

/-- Boolean test that the character list `pat` occurs contiguously in `s`. -/
def containsListB (pat : List Char) : List Char → Bool
  | [] => pat.isEmpty
  | b :: bs => startsWithB pat (b :: bs) || containsListB pat bs

/-- Contiguous-substring test on strings, used to state containment claims
about the generated script text. -/
def strContains (s pat : String) : Bool := containsListB pat.data s.data

theorem startsWithB_append (pat rest : List Char) : startsWithB pat (pat ++ rest) = true := by
  induction pat with
  | nil => rfl
  | cons a as ih => simp [startsWithB, ih]

theorem containsListB_of_startsWith (pat s : List Char) (h : startsWithB pat s = true) :
    containsListB pat s = true := by
  cases s with
  | nil =>
    cases pat with
    | nil => rfl
    | cons a as => simp [startsWithB] at h
  | cons b bs => simp [containsListB, h]

theorem containsListB_append_left (pat x s : List Char) (h : containsListB pat s = true) :
    containsListB pat (x ++ s) = true := by
  induction x with
  | nil => simpa using h
  | cons a as ih => simp [containsListB, ih]

theorem containsListB_append_pat (pat x y : List Char) : containsListB pat (x ++ (pat ++ y)) = true :=
  containsListB_append_left pat x _ (containsListB_of_startsWith pat _ (startsWithB_append pat y))

theorem strContains_of_parts (x pat y s : String) (h : s = x ++ (pat ++ y)) :
    strContains s pat = true := by
  subst h
  show containsListB pat.data (x ++ (pat ++ y)).data = true
  rw [String.data_append, String.data_append]
  exact containsListB_append_pat pat.data x.data y.data

/-- Concrete dataset from the spec's end-to-end example. -/
def dsT : Dataset := ⟨"T", ["A", "B"], [1, 2], none⟩

/-- Concrete three-category dataset. -/
def dsThree : Dataset := ⟨"Three", ["A", "B", "C"], [10, 20, 15], none⟩

/-- Concrete five-category dataset. -/
def dsFive : Dataset := ⟨"Five", ["A", "B", "C", "D", "E"], [1, 2, 3, 4, 5], none⟩

/-- Customization with the default palette, the clean theme and the medium
size preset, mirroring ChartBuilder's initial state. -/
def custClean : Customization :=
  ⟨⟨"Default", "default", ["#1f77b4", "#ff7f0e", "#2ca02c"]⟩,
   ⟨"Clean", "clean", "Minimal and professional"⟩,
   ⟨"Medium", "medium", 1200, 800⟩, 1200, 800⟩

/-- Customization identical to `custClean` except that the catalog's dark theme
is selected. -/
def custDark : Customization :=
  ⟨⟨"Default", "default", ["#1f77b4", "#ff7f0e", "#2ca02c"]⟩,
   ⟨"Dark", "dark", "Dark theme for modern look"⟩,
   ⟨"Medium", "medium", 1200, 800⟩, 1200, 800⟩

/-- The `matplotlib_line` catalog descriptor. -/
def lineChartDef : ChartType :=
  ⟨"matplotlib_line", "Line Chart", "matplotlib", "Perfect for showing trends over time", "📈", "basic"⟩

/-- The `matplotlib_bar` catalog descriptor. -/
def barChartDef : ChartType :=
  ⟨"matplotlib_bar", "Bar Chart", "matplotlib", "Great for comparing categories", "📊", "basic"⟩

/-- The `matplotlib_scatter` catalog descriptor. -/
def scatterChartDef : ChartType :=
  ⟨"matplotlib_scatter", "Scatter Plot", "matplotlib", "Shows relationships between variables", "⚪", "basic"⟩

/-- The `seaborn_violin` catalog descriptor. -/
def violinChartDef : ChartType :=
  ⟨"seaborn_violin", "Violin Plot", "seaborn", "Show distribution shapes", "🎻", "statistical"⟩

/-- The `plotly_interactive` catalog descriptor. -/
def plotlyChartDef : ChartType :=
  ⟨"plotly_interactive", "Interactive Chart", "plotly", "Hover, zoom, and pan capabilities", "🖱️", "interactive"⟩

/-- C1: evaluated with the catalog's dark theme selected, the generated script
still carries plt.style.use('default') and never 'dark_background', and the
plotly branch still emits template='plotly_white' and never 'plotly_dark':
the `theme === 'dark'` comparison in mock.js is between an object and a string
and never fires, so the style setup is not derived from the selected theme. -/
theorem dark_theme_not_applied_by_generator :
    strContains (generateMockPythonCode lineChartDef dsT custDark) "plt.style.use('default')" = true
    ∧ strContains (generateMockPythonCode lineChartDef dsT custDark) "dark_background" = false
    ∧ strContains (generateMockPythonCode plotlyChartDef dsT custDark) "template='plotly_white'" = true
    ∧ strContains (generateMockPythonCode plotlyChartDef dsT custDark) "plotly_dark" = false := by
  refine ⟨?_, ?_, ?_, ?_⟩ <;> decide

/-- C2 counterexample: for the spec's end-to-end example (dataset T, chart
matplotlib_line, clean theme, medium 1200 by 800 preset) the generated text does
not contain the binding "figure_size = (12.0, 8.0)": JavaScript renders
1200/100 as 12, not 12.0. -/
theorem medium_clean_figure_size_counterexample :
    strContains (generateMockPythonCode lineChartDef dsT custClean) "figure_size = (12.0, 8.0)" = false := by
  decide

/-- C2 amended: for the spec's end-to-end example the generated text contains
figsize=figure_size, the binding "figure_size = (12, 8)", the style line
plt.style.use('default'), and the literal title 'T'. -/
theorem medium_clean_end_to_end_amended :
    strContains (generateMockPythonCode lineChartDef dsT custClean) "figsize=figure_size" = true
    ∧ strContains (generateMockPythonCode lineChartDef dsT custClean) "figure_size = (12, 8)" = true
    ∧ strContains (generateMockPythonCode lineChartDef dsT custClean) "plt.style.use('default')" = true
    ∧ strContains (generateMockPythonCode lineChartDef dsT custClean) "plt.title('T'" = true := by
  refine ⟨?_, ?_, ?_, ?_⟩ <;> decide

/-- C3 counterexample: for a three-category bar chart the generated text does
not contain a tick-rotation of 0 (no "rotation=0" anywhere), while it does
contain "rotation=45" even though the category count is not greater than 4:
the 45-versus-0 choice is emitted as a Python conditional, not decided at
generation time. -/
theorem three_category_rotation_counterexample :
    dsThree.rows.length = 3
    ∧ strContains (generateMockPythonCode barChartDef dsThree custClean) "rotation=0" = false
    ∧ strContains (generateMockPythonCode barChartDef dsThree custClean) "rotation=45" = true := by
  refine ⟨rfl, ?_, ?_⟩ <;> decide

/-- C3 amended: for every chart descriptor with id matplotlib_bar and every
dataset and customization, the generated text contains the literal Python line
"plt.xticks(rotation=45 if len(rows) > 4 else 0)", which applies rotation 45
at script runtime exactly when the embedded rows list has more than 4 entries
and 0 otherwise. -/
theorem bar_xticks_conditional_always_emitted (chartType : ChartType) (dataset : Dataset)
    (c : Customization) (hid : chartType.id = "matplotlib_bar") :
    strContains (generateMockPythonCode chartType dataset c)
      "plt.xticks(rotation=45 if len(rows) > 4 else 0)" = true := by
  apply strContains_of_parts
    (preamble dataset c.theme c.size ++ barFront dataset c.colors) _ barTail
  show genCode chartType.id dataset c.colors c.theme c.size = _
  rw [hid]
  exact (String.append_assoc _ _ _).symm

/-- Witness for the amended C3 theorem at a concrete five-category input. -/
theorem bar_xticks_conditional_always_emitted_witness :
    barChartDef.id = "matplotlib_bar"
    ∧ strContains (generateMockPythonCode barChartDef dsFive custClean)
        "plt.xticks(rotation=45 if len(rows) > 4 else 0)" = true :=
  ⟨rfl, bar_xticks_conditional_always_emitted barChartDef dsFive custClean rfl⟩

/-- C4: the generated output never depends on the customization's customWidth
and customHeight fields: two customizations agreeing on colors, theme and size
yield identical output for every chart descriptor and dataset, because the
generator destructures only colors, theme and size from the customization. -/
theorem output_independent_of_custom_size_fields (chartType : ChartType) (dataset : Dataset)
    (c₁ c₂ : Customization) (hco : c₁.colors = c₂.colors) (hth : c₁.theme = c₂.theme)
    (hsz : c₁.size = c₂.size) :
    generateMockPythonCode chartType dataset c₁ = generateMockPythonCode chartType dataset c₂ := by
  unfold generateMockPythonCode
  rw [hco, hth, hsz]

/-- Customization selecting the catalog's custom size preset with the width
slider at 400 and the height slider at 300. -/
def custSliderLow : Customization :=
  ⟨⟨"Default", "default", ["#1f77b4", "#ff7f0e", "#2ca02c"]⟩,
   ⟨"Clean", "clean", "Minimal and professional"⟩,
   ⟨"Custom", "custom", 1200, 800⟩, 400, 300⟩

/-- Customization selecting the catalog's custom size preset with the width
slider at 2000 and the height slider at 1500. -/
def custSliderHigh : Customization :=
  ⟨⟨"Default", "default", ["#1f77b4", "#ff7f0e", "#2ca02c"]⟩,
   ⟨"Clean", "clean", "Minimal and professional"⟩,
   ⟨"Custom", "custom", 1200, 800⟩, 2000, 1500⟩

/-- Witness for C4: with the custom size preset selected, moving both sliders
leaves the generated plotly script unchanged. -/
theorem output_independent_of_custom_size_fields_witness :
    custSliderLow.colors = custSliderHigh.colors
    ∧ custSliderLow.theme = custSliderHigh.theme
    ∧ custSliderLow.size = custSliderHigh.size
    ∧ generateMockPythonCode plotlyChartDef dsT custSliderLow
        = generateMockPythonCode plotlyChartDef dsT custSliderHigh :=
  ⟨rfl, rfl, rfl,
   output_independent_of_custom_size_fields plotlyChartDef dsT custSliderLow custSliderHigh rfl rfl rfl⟩

/-- C7: for every chart descriptor whose id is none of the four recognized
discriminators, the generator raises no error and returns exactly the common
preamble followed by the default-branch body. -/
theorem unrecognized_id_uses_default_branch (chartType : ChartType) (dataset : Dataset)
    (c : Customization)
    (h₁ : chartType.id ≠ "matplotlib_line") (h₂ : chartType.id ≠ "matplotlib_bar")
    (h₃ : chartType.id ≠ "seaborn_heatmap") (h₄ : chartType.id ≠ "plotly_interactive") :
    generateMockPythonCode chartType dataset c
      = preamble dataset c.theme c.size ++ defaultBody dataset := by
  unfold generateMockPythonCode genCode
  rw [if_neg h₁, if_neg h₂, if_neg h₃, if_neg h₄]

/-- Chart descriptor with the unrecognized id "nonexistent_chart". -/
def nonexistentChartDef : ChartType :=
  ⟨"nonexistent_chart", "Nonexistent", "matplotlib", "not in the catalog", "?", "basic"⟩

/-- Witness for C7 at the id "nonexistent_chart". -/
theorem unrecognized_id_uses_default_branch_witness :
    nonexistentChartDef.id ≠ "matplotlib_line"
    ∧ generateMockPythonCode nonexistentChartDef dsT custClean
        = preamble dsT custClean.theme custClean.size ++ defaultBody dsT :=
  ⟨by decide,
   unrecognized_id_uses_default_branch nonexistentChartDef dsT custClean
     (by decide) (by decide) (by decide) (by decide)⟩

/-- C8: for every chart descriptor with id plotly_interactive, the width and
height literals embedded in the layout-update block of the generated script are
exactly the decimal renderings of customization.size.width and
customization.size.height. -/
theorem plotly_size_literals_match_customization (chartType : ChartType) (dataset : Dataset)
    (c : Customization) (hid : chartType.id = "plotly_interactive") :
    strContains (generateMockPythonCode chartType dataset c)
      ("    width=" ++ toString c.size.width ++ ",\n    height=" ++ toString c.size.height ++ ",\n")
      = true := by
  apply strContains_of_parts
    (preamble dataset c.theme c.size ++ plotlyFront dataset c.colors) _ (plotlyTail c.theme)
  show genCode chartType.id dataset c.colors c.theme c.size = _
  rw [hid]
  exact (String.append_assoc _ _ _).symm

/-- Witness for C8 at the medium preset: the emitted literals are 1200 and 800. -/
theorem plotly_size_literals_match_customization_witness :
    plotlyChartDef.id = "plotly_interactive"
    ∧ strContains (generateMockPythonCode plotlyChartDef dsT custClean)
        "    width=1200,\n    height=800,\n" = true :=
  ⟨rfl, plotly_size_literals_match_customization plotlyChartDef dsT custClean rfl⟩

/-- C9: the catalog descriptors with id matplotlib_scatter or seaborn_violin
fall to the generator's default branch for every dataset and customization:
the dispatch has no case for these two catalog ids. -/
theorem catalog_scatter_violin_fall_to_default (chartType : ChartType) (dataset : Dataset)
    (c : Customization) (hmem : chartType ∈ mockChartTypes)
    (hid : chartType.id = "matplotlib_scatter" ∨ chartType.id = "seaborn_violin") :
    generateMockPythonCode chartType dataset c
      = preamble dataset c.theme c.size ++ defaultBody dataset := by
  rcases hid with h | h <;>
  · unfold generateMockPythonCode genCode
    rw [h]
    rfl

/-- Witness for C9 at the scatter catalog entry. -/
theorem catalog_scatter_violin_fall_to_default_witness :
    scatterChartDef ∈ mockChartTypes
    ∧ generateMockPythonCode scatterChartDef dsT custClean
        = preamble dsT custClean.theme custClean.size ++ defaultBody dsT :=
  ⟨by decide,
   catalog_scatter_violin_fall_to_default scatterChartDef dsT custClean (by decide) (Or.inl rfl)⟩

/-- Parsed JSON value as `JSON.parse` produces it: null, booleans, numbers
(modeled as integers), strings, arrays and objects. Object keys are distinct,
as `JSON.parse` collapses duplicate keys before the validator ever sees them. -/
inductive JsValue where
  | null : JsValue
  | bool : Bool → JsValue
  | num : Int → JsValue
  | str : String → JsValue
  | arr : List JsValue → JsValue
  | obj : List (String × JsValue) → JsValue

/-- Lookup of a key among an object's fields. -/
def lookupField : List (String × JsValue) → String → Option JsValue
  | [], _ => none
  | (k', v) :: rest, k => if k' = k then some v else lookupField rest k

/-- JavaScript property access `parsed.x`: a present field of an object, and
`undefined` (modeled as `none`) on a missing field or any non-object. Access on
null throws instead and is handled separately where the code can reach it. -/
def getField : JsValue → String → Option JsValue
  | .obj fields, k => lookupField fields k
  | _, _ => none

/-- JavaScript truthiness of a parsed JSON value: null, false, 0 and the empty
string are falsy; every array and object is truthy. -/
def jsTruthy : JsValue → Bool
  | .null => false
  | .bool b => b
  | .num n => decide (n ≠ 0)
  | .str s => decide (s ≠ "")
  | .arr _ => true
  | .obj _ => true

/-- Truthiness of a possibly-undefined property (`undefined` is falsy). -/
def truthyOpt (v : Option JsValue) : Bool :=
  match v with
  | some x => jsTruthy x
  | none => false

/-- The `Array.isArray` test on a possibly-undefined property. -/
def isArrOpt (v : Option JsValue) : Bool :=
  match v with
  | some (.arr _) => true
  | _ => false

/-- The `.length` read on a property the code has already checked to be an
array (the fallback value is never reached on the validator's paths). -/
def arrLenOpt (v : Option JsValue) : Nat :=
  match v with
  | some (.arr l) => l.length
  | _ => 0

/-- Result record of `validateAndParseJson` in DataInput.jsx: the
`{ isValid, data, error }` object, with `data` and `error` null (`none`) in the
failure and success cases respectively. -/
structure ValidationResult where
  isValid : Bool
  data : Option JsValue
  error : Option String

/-- Validation of an already-parsed value, DataInput.jsx lines 26-39: the
required-field check uses JavaScript truthiness of `parsed.rows` and
`parsed.cols`, then `Array.isArray` on both, then the empty-array check; on
success the returned `data` is the parsed value itself, unchanged. When the
parsed value is null, the property access `parsed.rows` throws a TypeError that
the surrounding catch turns into a failure result (the message text is the
JavaScript engine's). -/
def validateParsed (parsed : JsValue) : ValidationResult :=
  match parsed with
  | .null => ⟨false, none, some "Cannot read properties of null (reading 'rows')"⟩
  | p =>
    if !truthyOpt (getField p "rows") || !truthyOpt (getField p "cols") then
      ⟨false, none, some "JSON must contain \"rows\" and \"cols\" arrays"⟩
    else if !isArrOpt (getField p "rows") || !isArrOpt (getField p "cols") then
      ⟨false, none, some "\"rows\" and \"cols\" must be arrays"⟩
    else if arrLenOpt (getField p "rows") == 0 || arrLenOpt (getField p "cols") == 0 then
      ⟨false, none, some "Arrays cannot be empty"⟩
    else ⟨true, some p, none⟩

/-- Transcription of `validateAndParseJson` from DataInput.jsx lines 22-43,
over the outcome of the `JSON.parse` call (`JSON.parse` itself is a platform
builtin, not repository code; a parse failure is its thrown SyntaxError's
message, which the catch block returns as the error). -/
def validateAndParseJson : Except String JsValue → ValidationResult
  | .error e => ⟨false, none, some e⟩
  | .ok parsed => validateParsed parsed

/-- JavaScript `x || 'fallback'` on a possibly-undefined property: the value
itself when truthy, the fallback string otherwise. -/
def jsOrString (v : Option JsValue) (d : String) : JsValue :=
  match v with
  | some x => if jsTruthy x then x else .str d
  | none => .str d

/-- Object-spread update `\x7b...fields, name: v\x7d` for the distinct-key
field lists `JSON.parse` produces: an existing key keeps its position with the
new value, a fresh key is appended at the end. -/
def setField : List (String × JsValue) → String → JsValue → List (String × JsValue)
  | [], k, v => [(k, v)]
  | (k', w) :: rest, k, v => if k' = k then (k, v) :: rest else (k', w) :: setField rest k v

/-- The payload `handleJsonChange` passes to `onDataChange` on a valid input,
DataInput.jsx lines 52-57: the parsed data spread with
`name: result.data.name || 'Custom Dataset'`. Validated data is always an
object; the other arm models the spread of a non-object, which contributes no
properties. -/
def handleJsonChangePayload : JsValue → JsValue
  | .obj fields =>
    .obj (setField fields "name" (jsOrString (lookupField fields "name") "Custom Dataset"))
  | v => .obj [("name", jsOrString (getField v "name") "Custom Dataset")]

/-- C5: every parsed value whose rows and cols properties are non-empty arrays
(their lengths may differ) validates successfully, and the returned data is the
parsed value itself, so its rows and cols are the input arrays unchanged. -/
theorem validate_accepts_nonempty_arrays (parsed : JsValue) (rs cs : List JsValue)
    (hr : getField parsed "rows" = some (JsValue.arr rs)) (hrne : rs ≠ [])
    (hc : getField parsed "cols" = some (JsValue.arr cs)) (hcne : cs ≠ []) :
    validateAndParseJson (Except.ok parsed) = ⟨true, some parsed, none⟩ := by
  cases parsed with
  | null => simp [getField] at hr
  | bool b => simp [getField] at hr
  | num n => simp [getField] at hr
  | str s => simp [getField] at hr
  | arr l => simp [getField] at hr
  | obj fields =>
    show validateParsed (JsValue.obj fields) = _
    simp only [validateParsed, hr, hc, truthyOpt, jsTruthy, isArrOpt, arrLenOpt,
      Bool.not_true, Bool.or_self, Bool.false_or, Bool.or_false]
    simp [List.length_eq_zero, hrne, hcne]

/-- Parsed object with two row labels and three column values: the length
mismatch is accepted. -/
def goodParsed : JsValue :=
  JsValue.obj [("name", .str "W"), ("rows", .arr [.str "A", .str "B"]),
    ("cols", .arr [.num 1, .num 2, .num 3])]

/-- Witness for C5 at a concrete object whose rows and cols have different
lengths. -/
theorem validate_accepts_nonempty_arrays_witness :
    getField goodParsed "rows" = some (JsValue.arr [.str "A", .str "B"])
    ∧ getField goodParsed "cols" = some (JsValue.arr [.num 1, .num 2, .num 3])
    ∧ validateAndParseJson (Except.ok goodParsed) = ⟨true, some goodParsed, none⟩ :=
  ⟨rfl, rfl,
   validate_accepts_nonempty_arrays goodParsed _ _ rfl (by simp) rfl (by simp)⟩

/-- Inputs claim C6 ranges over: a parse failure, a parsed value whose rows or
cols property is missing, present but not an array, or an empty array. -/
def badValidatorInput : Except String JsValue → Prop
  | .error _ => True
  | .ok parsed =>
      getField parsed "rows" = none ∨ getField parsed "cols" = none
      ∨ (∃ v, getField parsed "rows" = some v ∧ isArrOpt (some v) = false)
      ∨ (∃ v, getField parsed "cols" = some v ∧ isArrOpt (some v) = false)
      ∨ getField parsed "rows" = some (JsValue.arr [])
      ∨ getField parsed "cols" = some (JsValue.arr [])

/-- C6: on every bad input — unparseable text, missing rows or cols, a
non-array rows or cols, or an empty array — validation returns a failure that
carries a message, and no dataset is produced. -/
theorem validate_rejects_bad_input (pr : Except String JsValue) (h : badValidatorInput pr) :
    ∃ msg, validateAndParseJson pr = ⟨false, none, some msg⟩ := by
  cases pr with
  | error e => exact ⟨e, rfl⟩
  | ok parsed =>
    show ∃ msg, validateParsed parsed = _
    cases parsed with
    | null => exact ⟨_, rfl⟩
    | bool b => exact ⟨_, rfl⟩
    | num n => exact ⟨_, rfl⟩
    | str s => exact ⟨_, rfl⟩
    | arr l => exact ⟨_, rfl⟩
    | obj fields =>
      simp only [validateParsed]
      split
      · exact ⟨_, rfl⟩
      · split
        · exact ⟨_, rfl⟩
        · split
          · exact ⟨_, rfl⟩
          · exfalso
            rename_i h1 h2 h3
            simp only [badValidatorInput] at h
            simp only [Bool.or_eq_true, Bool.not_eq_true', not_or] at h1 h2 h3
            rcases h with hrn | hcn | ⟨v, hv, hna⟩ | ⟨v, hv, hna⟩ | hre | hce <;>
              simp_all [truthyOpt, isArrOpt, arrLenOpt]

/-- Parse result whose rows property is a number, not an array. -/
def badParsed : Except String JsValue :=
  Except.ok (JsValue.obj [("rows", .num 5), ("cols", .arr [.num 1])])

/-- Witness for C6 at a parsed object whose rows property is not an array. -/
theorem validate_rejects_bad_input_witness :
    badValidatorInput badParsed
    ∧ ∃ msg, validateAndParseJson badParsed = ⟨false, none, some msg⟩ :=
  ⟨Or.inr (Or.inr (Or.inl ⟨.num 5, rfl, rfl⟩)),
   validate_rejects_bad_input badParsed (Or.inr (Or.inr (Or.inl ⟨.num 5, rfl, rfl⟩)))⟩

theorem lookupField_setField_self (fields : List (String × JsValue)) (k : String) (v : JsValue) :
    lookupField (setField fields k v) k = some v := by
  induction fields with
  | nil => simp [setField, lookupField]
  | cons p rest ih =>
    obtain ⟨k', w⟩ := p
    by_cases hp : k' = k
    · simp [setField, hp, lookupField]
    · simp [setField, hp, lookupField, ih]

theorem lookupField_setField_other (fields : List (String × JsValue)) (k k₂ : String)
    (v : JsValue) (hne : k₂ ≠ k) :
    lookupField (setField fields k v) k₂ = lookupField fields k₂ := by
  induction fields with
  | nil => simp [setField, lookupField, hne.symm]
  | cons p rest ih =>
    obtain ⟨k', w⟩ := p
    by_cases hp : k' = k
    · subst hp
      simp [setField, lookupField, hne.symm]
    · simp [setField, hp, lookupField, ih]

/-- Dataset whose name property is present but is the empty string. -/
def emptyNameParsed : JsValue :=
  JsValue.obj [("name", .str ""), ("rows", .arr [.str "A"]), ("cols", .arr [.num 1])]

/-- C10 counterexample: this input validates successfully and its name property
is present (the empty string), yet the payload handed to onDataChange carries
the name "Custom Dataset", not the input's name: the JavaScript expression
`result.data.name || 'Custom Dataset'` replaces every falsy present name. -/
theorem present_name_replaced_counterexample :
    (validateParsed emptyNameParsed).isValid = true
    ∧ getField emptyNameParsed "name" = some (JsValue.str "")
    ∧ getField (handleJsonChangePayload emptyNameParsed) "name"
        = some (JsValue.str "Custom Dataset")
    ∧ JsValue.str "Custom Dataset" ≠ JsValue.str "" := by
  refine ⟨rfl, rfl, rfl, ?_⟩
  intro hcon
  injection hcon with hs
  exact absurd hs (by decide)

/-- C10 amended: on every successfully validated object, the payload's name is
the input's name property when that property is present and truthy, and the
literal "Custom Dataset" when the property is absent or falsy (for example the
empty string); every other property is passed through unchanged. -/
theorem name_defaulting_amended (data : JsValue)
    (hsucc : (validateParsed data).isValid = true) :
    (∀ v, getField data "name" = some v → jsTruthy v = true →
        getField (handleJsonChangePayload data) "name" = some v)
    ∧ (getField data "name" = none →
        getField (handleJsonChangePayload data) "name" = some (JsValue.str "Custom Dataset"))
    ∧ (∀ v, getField data "name" = some v → jsTruthy v = false →
        getField (handleJsonChangePayload data) "name" = some (JsValue.str "Custom Dataset"))
    ∧ (∀ k, k ≠ "name" → getField (handleJsonChangePayload data) k = getField data k) := by
  cases data with
  | null => exact Bool.noConfusion hsucc
  | bool b => exact Bool.noConfusion hsucc
  | num n => exact Bool.noConfusion hsucc
  | str s => exact Bool.noConfusion hsucc
  | arr l => exact Bool.noConfusion hsucc
  | obj fields =>
    refine ⟨?_, ?_, ?_, ?_⟩
    · intro v hv htv
      have hv' : lookupField fields "name" = some v := hv
      show lookupField (setField fields "name" (jsOrString (lookupField fields "name") "Custom Dataset")) "name" = some v
      rw [lookupField_setField_self, hv']
      simp [jsOrString, htv]
    · intro hnone
      have hn' : lookupField fields "name" = none := hnone
      show lookupField (setField fields "name" (jsOrString (lookupField fields "name") "Custom Dataset")) "name" = some (JsValue.str "Custom Dataset")
      rw [lookupField_setField_self, hn']
      rfl
    · intro v hv hfv
      have hv' : lookupField fields "name" = some v := hv
      show lookupField (setField fields "name" (jsOrString (lookupField fields "name") "Custom Dataset")) "name" = some (JsValue.str "Custom Dataset")
      rw [lookupField_setField_self, hv']
      simp [jsOrString, hfv]
    · intro k hk
      show lookupField (setField fields "name" (jsOrString (lookupField fields "name") "Custom Dataset")) k = lookupField fields k
      exact lookupField_setField_other fields "name" k _ hk

/-- Validated object with the truthy name "My Data". -/
def namedParsed : JsValue :=
  JsValue.obj [("name", .str "My Data"), ("rows", .arr [.str "A"]), ("cols", .arr [.num 1])]

/-- Witness for the amended C10 theorem: a truthy present name is preserved and
the rows property passes through unchanged. -/
theorem name_defaulting_amended_witness :
    (validateParsed namedParsed).isValid = true
    ∧ getField (handleJsonChangePayload namedParsed) "name" = some (JsValue.str "My Data")
    ∧ getField (handleJsonChangePayload namedParsed) "rows" = getField namedParsed "rows" :=
  ⟨rfl,
   (name_defaulting_amended namedParsed rfl).1 (JsValue.str "My Data") rfl rfl,
   (name_defaulting_amended namedParsed rfl).2.2.2 "rows" (by decide)⟩
